import Mathlib

/- Shallow embedding of `vivarium/framework/values.py`: the dynamic value
pipeline system (Pipeline, the combiner strategies, the joint-value
post-processor, and the ValuesManager registry), together with proofs about
its behavior.  Python machinery is made explicit: mutable attributes become
record fields, `raise` becomes `Except.error`, dict/defaultdict state is an
association list threaded through the operations. -/

namespace Vivarium

/-- Errors raised by the embedded code.  `dynamicValueNoSource` and
`dynamicValueNotConfigured` model the two `DynamicValueError` raises in
`Pipeline._call`; each carries the pipeline's `name` attribute (which may be
Python `None`, hence `Option`).  `attributeError` models an `AttributeError`
from a failed attribute lookup, `valueError` the `ValueError` raised by
`_get_modifier_name` on an unknown modifier type, and `typeError` a call of a
non-callable (a `None` combiner). -/
inductive Err where
  | dynamicValueNoSource : Option String → Err
  | dynamicValueNotConfigured : Option String → Err
  | attributeError : Err
  | valueError : Err
  | typeError : Err
deriving DecidableEq

/-- The owner object of a bound method (`modifier.__self__`): it may expose a
`name` attribute, and always has a class whose `__name__` is `clsName`. -/
structure Owner where
  name : Option String
  clsName : String

/-- The class of a modifier object.  `dunderName` is the class `__name__`.
`name__` models the literal attribute spelled `name__` that
`_get_modifier_name` reads off the class (the source says
`modifier.__class__.name__`); ordinary Python classes have no such attribute,
so it is `none` unless a class explicitly defines one. -/
structure PyClass where
  dunderName : String
  name__ : Option String

/-- A value-pipeline mutator/modifier: a callable together with the
attributes that `_get_modifier_name` probes (`name`, `__self__`, `__name__`,
`__call__`, `__class__`).  `call` is its behavior on positional args and
kwargs; kwargs are abstracted as a single value of type `K`. -/
structure Modifier (V K : Type) where
  name : Option String
  boundSelf : Option Owner
  dunderName : Option String
  hasCall : Bool
  cls : PyClass
  call : List V → K → V

/-- A combiner strategy: `combiner(value, mutator, *args, **kwargs)`.  It may
fail (for example `list_combiner` applied to a non-list value), hence the
`Except` result. -/
abbrev Combiner (V K : Type) := V → Modifier V K → List V → K → Except Err V

/-- `replace_combiner`: `args = list(args) + [value]; return
mutator(*args, **kwargs)`. -/
def replace_combiner {V K : Type} : Combiner V K :=
  fun value mutator args kwargs => Except.ok (mutator.call (args ++ [value]) kwargs)

/-- A dynamically typed pipeline value: either a base scalar of type `W` or a
Python list of values. -/
inductive Val (W : Type) where
  | base : W → Val W
  | vlist : List (Val W) → Val W

/-- `list_combiner`: `value.append(mutator(*args, **kwargs)); return value`.
Looking up `.append` on a non-list raises `AttributeError`. -/
def list_combiner {W K : Type} : Combiner (Val W) K :=
  fun value mutator args kwargs =>
    match value with
    | Val.vlist l => Except.ok (Val.vlist (l ++ [mutator.call args kwargs]))
    | Val.base _ => Except.error Err.attributeError

/-- `joint_value_post_processor(a, _)`: if the list has exactly one element,
return it; otherwise return `1 - prod (1 - v)` over the elements, computed by
the source's explicit accumulation loop.  Numeric values are modeled as
rationals. -/
def joint_value_post_processor (a : List ℚ) (_ : ℚ) : ℚ :=
  match a with
  | [x] => x
  | _ => 1 - a.foldl (fun product v => product * (1 - v)) 1

/-- A `Pipeline` object: one mutable dynamic value.  All attributes start
unset (`Pipeline.__init__`).  `manager` is modeled by the step size the
manager supplies at post-processing time (`self.manager.step_size()` in the
source), and is `none` while `self.manager is None`. -/
structure Pipeline (V S K : Type) where
  name : Option String
  source : Option (List V → K → V)
  mutators : List (Modifier V K)
  combiner : Option (Combiner V K)
  post_processor : Option (V → S → V)
  manager : Option S
  configured : Bool

/-- A freshly constructed `Pipeline()`, as produced by `Pipeline.__init__`
(also the `defaultdict` factory in `ValuesManager`). -/
def Pipeline.init {V S K : Type} : Pipeline V S K :=
  ⟨none, none, [], none, none, none, false⟩

/-- The mutator loop of `Pipeline._call`: `for mutator in self.mutators:
value = self.combiner(value, mutator, *args, **kwargs)`.  A `None` combiner
is not callable, which Python reports as a `TypeError`. -/
def applyMutators {V K : Type} (combiner : Option (Combiner V K)) (args : List V) (kwargs : K) :
    V → List (Modifier V K) → Except Err V
  | value, [] => Except.ok value
  | value, mutator :: rest =>
    match combiner with
    | none => Except.error Err.typeError
    | some c =>
      match c value mutator args kwargs with
      | Except.error e => Except.error e
      | Except.ok value2 => applyMutators combiner args kwargs value2 rest

/-- The body of `Pipeline._call` after the two precondition checks: evaluate
the source, fold the mutators through the combiner, then post-process with
the manager's step size unless the post-processor is absent or skipped. -/
def Pipeline.callBody {V S K : Type} (p : Pipeline V S K) (src : List V → K → V)
    (args : List V) (kwargs : K) (skip_post_processor : Bool) : Except Err V :=
  match applyMutators p.combiner args kwargs (src args kwargs) p.mutators with
  | Except.error e => Except.error e
  | Except.ok value =>
    match p.post_processor, skip_post_processor with
    | some pp, false =>
      match p.manager with
      | some step => Except.ok (pp value step)
      | none => Except.error Err.attributeError
    | _, _ => Except.ok value

/-- `Pipeline._call` (and `Pipeline.__call__`, which just forwards to it):
raise a `DynamicValueError` if there is no source, raise a distinct
`DynamicValueError` if there is a source but the pipeline was never
configured, otherwise run the body. -/
def Pipeline.call {V S K : Type} (p : Pipeline V S K) (args : List V) (kwargs : K)
    (skip_post_processor : Bool) : Except Err V :=
  match p.source with
  | none => Except.error (Err.dynamicValueNoSource p.name)
  | some src =>
    if p.configured then p.callBody src args kwargs skip_post_processor
    else Except.error (Err.dynamicValueNotConfigured p.name)

/-- `ValuesManager._get_modifier_name`: duck-typed display-name resolution by
a chain of `hasattr` probes.  The anonymous-callable branch reads
`modifier.__class__.name__` exactly as the source does (attribute spelled
`name__`, not the class `__name__`). -/
def _get_modifier_name {V K : Type} (modifier : Modifier V K) : Except Err String :=
  match modifier.name with
  | some n => Except.ok n
  | none =>
    match modifier.boundSelf with
    | some owner =>
      let owner_name :=
        match owner.name with
        | some n => n
        | none => owner.clsName
      match modifier.dunderName with
      | some fn => Except.ok (owner_name ++ "." ++ fn)
      | none => Except.error Err.attributeError
    | none =>
      match modifier.dunderName with
      | some fn => Except.ok fn
      | none =>
        if modifier.hasCall then
          match modifier.cls.name__ with
          | some cn => Except.ok (cn ++ "." ++ "__call__")
          | none => Except.error Err.attributeError
        else Except.error Err.valueError

/-- The `ValuesManager` state: the `_pipelines` defaultdict as an
insertion-ordered association list, plus the step size obtained from the
builder at setup (`self.step_size`). -/
structure ValuesManager (V S K : Type) where
  _pipelines : List (String × Pipeline V S K)
  step_size : S

/-- Ordered-dict key lookup. -/
def dictLookup {α : Type} : List (String × α) → String → Option α
  | [], _ => none
  | (k, v) :: rest, n => if k = n then some v else dictLookup rest n

/-- Ordered-dict key assignment: replace in place when the key is present,
append at the end otherwise (Python dict insertion-order semantics). -/
def dictSet {α : Type} : List (String × α) → String → α → List (String × α)
  | [], n, p => [(n, p)]
  | (k, v) :: rest, n, p => if k = n then (n, p) :: rest else (k, v) :: dictSet rest n p

/-- `self._pipelines[name]` on the defaultdict: return the pipeline when
present; otherwise materialize a fresh `Pipeline()` entry and return it,
together with the updated manager state. -/
def dictGet {V S K : Type} (mgr : ValuesManager V S K) (n : String) :
    Pipeline V S K × ValuesManager V S K :=
  match dictLookup mgr._pipelines n with
  | some p => (p, mgr)
  | none => (Pipeline.init, { mgr with _pipelines := mgr._pipelines ++ [(n, Pipeline.init)] })

/-- `ValuesManager.get_value(name)`: `return self._pipelines[name]` (a
defaultdict access, so it auto-creates a missing entry). -/
def ValuesManager.get_value {V S K : Type} (mgr : ValuesManager V S K) (n : String) :
    Pipeline V S K × ValuesManager V S K :=
  dictGet mgr n

/-- `ValuesManager._register_value_producer`: fetch (or create) the pipeline
for `value_name` and assign its `name`, `source`, `combiner`,
`post_processor`, `manager` and `configured` attributes in place. -/
def ValuesManager._register_value_producer {V S K : Type} (mgr : ValuesManager V S K)
    (value_name : String) (source : Option (List V → K → V))
    (preferred_combiner : Combiner V K) (preferred_post_processor : Option (V → S → V)) :
    Pipeline V S K × ValuesManager V S K :=
  let pr := dictGet mgr value_name
  let pipeline : Pipeline V S K :=
    { pr.1 with
      name := some value_name
      source := source
      combiner := some preferred_combiner
      post_processor := preferred_post_processor
      manager := some mgr.step_size
      configured := true }
  (pipeline, { pr.2 with _pipelines := dictSet pr.2._pipelines value_name pipeline })

/-- `ValuesManager.register_value_producer`: delegate to
`_register_value_producer` with the given source and return the pipeline.
(The `value_source` resource declaration built from the explicit
`requires_*` lists and the lifecycle constraint it installs involve only
external collaborators and are not needed by any property proved here.) -/
def ValuesManager.register_value_producer {V S K : Type} (mgr : ValuesManager V S K)
    (value_name : String) (source : List V → K → V)
    (preferred_combiner : Combiner V K) (preferred_post_processor : Option (V → S → V)) :
    Pipeline V S K × ValuesManager V S K :=
  mgr._register_value_producer value_name (some source) preferred_combiner
    preferred_post_processor

/-- `ValuesManager.register_value_modifier`: resolve the modifier's display
name (which may raise), append the modifier to the pipeline's mutator list,
and declare a `value_modifier` resource keyed by
`value_name ++ "." ++ len(pipeline.mutators) ++ "." ++ modifier_name`, where
the length is taken after the append.  Returns the updated manager state and
the declared resource key. -/
def ValuesManager.register_value_modifier {V S K : Type} (mgr : ValuesManager V S K)
    (value_name : String) (modifier : Modifier V K) :
    Except Err (ValuesManager V S K × String) :=
  match _get_modifier_name modifier with
  | Except.error e => Except.error e
  | Except.ok modifier_name =>
    let pr := dictGet mgr value_name
    let pipeline : Pipeline V S K := { pr.1 with mutators := pr.1.mutators ++ [modifier] }
    let resource_key :=
      value_name ++ "." ++ toString pipeline.mutators.length ++ "." ++ modifier_name
    Except.ok
      ({ pr.2 with _pipelines := dictSet pr.2._pipelines value_name pipeline }, resource_key)

/-- The resource-id scheme of the resource graph collaborator: a declared
resource of a given kind with key `id` is referred to in dependency strings
as `kind ++ "." ++ id`. -/
def resourceId (kind id : String) : String := kind ++ "." ++ id

/-- The `for i, m in enumerate(pipe.mutators)` loop of `on_post_setup`,
building one `value_modifier.<name>.<i>.<mutator_name>` dependency per
mutator; `_get_modifier_name` may raise. -/
def modifierDeps {V K : Type} (n : String) : Nat → List (Modifier V K) → Except Err (List String)
  | _, [] => Except.ok []
  | i, m :: rest =>
    match _get_modifier_name m with
    | Except.error e => Except.error e
    | Except.ok mutator_name =>
      match modifierDeps n (i + 1) rest with
      | Except.error e => Except.error e
      | Except.ok ds =>
        Except.ok (("value_modifier." ++ n ++ "." ++ toString i ++ "." ++ mutator_name) :: ds)

/-- The dependency list `on_post_setup` computes for one pipeline: the
`value_source.<name>` edge when a source exists, followed by the per-mutator
`value_modifier` edges. -/
def valueDeps {V S K : Type} (n : String) (pipe : Pipeline V S K) : Except Err (List String) :=
  let srcDeps := if pipe.source.isSome then ["value_source." ++ n] else []
  match modifierDeps n 0 pipe.mutators with
  | Except.error e => Except.error e
  | Except.ok ds => Except.ok (srcDeps ++ ds)

/-- The registration loop of `on_post_setup` over all pipelines, in registry
order: each pipeline is registered as a `'value'` resource with ids
`[name]` and its computed dependency list.  (The unsourced pipelines are
additionally written to the debug log, which has no observable state here.) -/
def postSetupRegs {V S K : Type} :
    List (String × Pipeline V S K) → Except Err (List (String × List String × List String))
  | [] => Except.ok []
  | (n, pipe) :: rest =>
    match valueDeps n pipe with
    | Except.error e => Except.error e
    | Except.ok ds =>
      match postSetupRegs rest with
      | Except.error e => Except.error e
      | Except.ok rs => Except.ok (("value", [n], ds) :: rs)

/-- `ValuesManager.on_post_setup(event)`: register a `'value'` resource for
every pipeline currently in the registry. -/
def ValuesManager.on_post_setup {V S K : Type} (mgr : ValuesManager V S K) :
    Except Err (List (String × List String × List String)) :=
  postSetupRegs mgr._pipelines

/-- Written from the specification's words, for comparison with
`on_post_setup`: the dependency list of a pipeline's `value` resource is the
string `value_source.<name>` if and only if the pipeline has a source,
followed by one `value_modifier.<name>.<i>.<modifier-name>` entry per mutator
in registration order, with `i` the mutator's position.  `names` is the list
of resolved modifier display names, in the same order as the mutators. -/
def specValueDeps {V S K : Type} (n : String) (pipe : Pipeline V S K)
    (names : List String) : List String :=
  (if pipe.source.isSome then ["value_source." ++ n] else [])
    ++ names.enum.map fun im => "value_modifier." ++ n ++ "." ++ toString im.1 ++ "." ++ im.2

/-- Under `replace_combiner` the mutator loop is the left fold that hands each
mutator the original args with the accumulated value appended. -/
theorem applyMutators_replace {V K : Type} (args : List V) (kwargs : K)
    (ms : List (Modifier V K)) (v : V) :
    applyMutators (some replace_combiner) args kwargs v ms
      = Except.ok (ms.foldl (fun value m => m.call (args ++ [value]) kwargs) v) := by
  induction ms generalizing v with
  | nil => rfl
  | cons m rest ih => simp [applyMutators, replace_combiner, ih]

/-- C1: for every pipeline whose combiner is `replace_combiner`, with source
set and configured true, calling the pipeline computes
`value = source(*args, **kwargs)`, folds the mutators in registration order
with each mutator receiving the original args plus the accumulated value as
trailing positional argument, and finally, if a post-processor exists and
`skip_post_processor` is false, returns `post_processor(value, step_size)`,
else the folded value. -/
theorem replace_pipeline_call_spec {V S K : Type} (p : Pipeline V S K)
    (src : List V → K → V) (step : S)
    (hs : p.source = some src) (hc : p.configured = true)
    (hcb : p.combiner = some replace_combiner) (hm : p.manager = some step)
    (args : List V) (kwargs : K) (skip_post_processor : Bool) :
    p.call args kwargs skip_post_processor =
      Except.ok
        (match p.post_processor, skip_post_processor with
         | some pp, false =>
             pp (p.mutators.foldl (fun value m => m.call (args ++ [value]) kwargs)
                  (src args kwargs)) step
         | _, _ =>
             p.mutators.foldl (fun value m => m.call (args ++ [value]) kwargs)
               (src args kwargs)) := by
  unfold Pipeline.call
  rw [hs]
  simp only [hc, if_true, Pipeline.callBody, hcb, applyMutators_replace, hm]
  rcases p.post_processor with _ | pp <;> rcases skip_post_processor <;> simp

/-- A concrete mutator: a named callable that returns one more than the last
positional argument it receives. -/
def incLast : Modifier Nat Unit :=
  ⟨some "inc_last", none, none, true, ⟨"IncLast", none⟩, fun a _ => a.getLastD 0 + 1⟩

/-- A concrete configured replace-combiner pipeline with constant source 1
and the single mutator `incLast`. -/
def wPipe1 : Pipeline Nat Nat Unit :=
  ⟨some "wp", some (fun _ _ => 1), [incLast], some replace_combiner, none, some 0, true⟩

/-- Witness for C1 at a concrete pipeline: the source yields 1 and the
mutator maps it to 2. -/
theorem replace_pipeline_call_spec_witness : wPipe1.call [] () false = Except.ok 2 :=
  (replace_pipeline_call_spec wPipe1 (fun _ _ => 1) 0 rfl rfl rfl rfl [] () false).trans rfl

/-- C2: a pipeline call succeeds only when `source` is set and `configured`
is true: with no source it raises the no-source dynamic-value error naming
the pipeline, with a source but unconfigured it raises the distinct
inconsistent-state dynamic-value error, and when both preconditions hold
neither error branch is reached (the call proceeds to the pipeline body). -/
theorem call_precondition_errors {V S K : Type} (p : Pipeline V S K)
    (args : List V) (kwargs : K) (skip_post_processor : Bool) :
    (p.source = none →
        p.call args kwargs skip_post_processor
          = Except.error (Err.dynamicValueNoSource p.name))
    ∧ (∀ src, p.source = some src → p.configured = false →
        p.call args kwargs skip_post_processor
          = Except.error (Err.dynamicValueNotConfigured p.name))
    ∧ (∀ nm nm2, Err.dynamicValueNoSource nm ≠ Err.dynamicValueNotConfigured nm2)
    ∧ (∀ src, p.source = some src → p.configured = true →
        p.call args kwargs skip_post_processor
          = p.callBody src args kwargs skip_post_processor) := by
  refine ⟨?_, ?_, ?_, ?_⟩
  · intro h
    simp [Pipeline.call, h]
  · intro src hsrc hconf
    simp [Pipeline.call, hsrc, hconf]
  · intro nm nm2 h
    exact Err.noConfusion h
  · intro src hsrc hconf
    simp [Pipeline.call, hsrc, hconf]

/-- Witness for C2: a freshly created pipeline has no source and calling it
yields the no-source dynamic-value error (with its `name` still unset). -/
theorem call_precondition_errors_witness :
    (Pipeline.init : Pipeline Nat Nat Unit).source = none ∧
      (Pipeline.init : Pipeline Nat Nat Unit).call [] () false
        = Except.error (Err.dynamicValueNoSource none) :=
  ⟨rfl, (call_precondition_errors Pipeline.init [] () false).1 rfl⟩

/-- Under `list_combiner`, starting from a list seed, the mutator loop
appends each mutator's output (on the original args) to the seed list. -/
theorem applyMutators_list {W K : Type} (args : List (Val W)) (kwargs : K)
    (ms : List (Modifier (Val W) K)) (l : List (Val W)) :
    applyMutators (some list_combiner) args kwargs (Val.vlist l) ms
      = Except.ok (Val.vlist (l ++ ms.map fun m => m.call args kwargs)) := by
  induction ms generalizing l with
  | nil => simp [applyMutators]
  | cons m rest ih => simp [applyMutators, list_combiner, ih]

/-- A concrete mutator returning the scalar 7 on any arguments. -/
def constSeven : Modifier (Val Nat) Unit :=
  ⟨some "const_seven", none, none, true, ⟨"ConstSeven", none⟩, fun _ _ => Val.base 7⟩

/-- A concrete configured list-combiner pipeline whose source returns the
non-empty seed list `[42]` and whose single mutator returns 7. -/
def cexListPipe : Pipeline (Val Nat) Nat Unit :=
  ⟨some "lp", some (fun _ _ => Val.vlist [Val.base 42]), [constSeven],
    some list_combiner, none, some 0, true⟩

/-- Counterexample to C6 as stated: with combiner `list_combiner`, source set
and configured, no post-processor, the call on a source returning the seed
list `[42]` yields `[42, 7]`, not the claimed
`[m(*args, **kwargs) for m in mutators] = [7]`: the seed is retained, not
discarded. -/
theorem list_pipeline_seed_retained_cex :
    cexListPipe.call [] () false = Except.ok (Val.vlist [Val.base 42, Val.base 7])
      ∧ Val.vlist [Val.base 42, Val.base 7]
          ≠ Val.vlist [Val.base (7 : Nat)] := by
  constructor
  · rfl
  · intro h
    rw [Val.vlist.injEq] at h
    simp at h

/-- C6 amended: for every pipeline with combiner `list_combiner`, source set
and configured, and post-processor absent or skipped, the call returns the
list the source produced with `m(*args, **kwargs)` appended for each mutator
in registration order; the source's list is the initial accumulator and its
contents are retained, so the result is exactly the mutator-output list
precisely when the source returns the empty list. -/
theorem list_pipeline_call_amended {W S K : Type} (p : Pipeline (Val W) S K)
    (src : List (Val W) → K → Val W) (seed : List (Val W))
    (hs : p.source = some src) (hc : p.configured = true)
    (hcb : p.combiner = some list_combiner)
    (args : List (Val W)) (kwargs : K) (skip_post_processor : Bool)
    (hseed : src args kwargs = Val.vlist seed)
    (hpp : p.post_processor = none ∨ skip_post_processor = true) :
    p.call args kwargs skip_post_processor
      = Except.ok (Val.vlist (seed ++ p.mutators.map fun m => m.call args kwargs)) := by
  unfold Pipeline.call
  rw [hs]
  simp only [hc, if_true, Pipeline.callBody, hcb, hseed, applyMutators_list]
  rcases hpp with hpp | hpp
  · simp [hpp]
  · subst hpp
    rcases p.post_processor with _ | pp <;> simp

/-- Witness for C6 amended: a source seeding `[3]` with the mutator
`constSeven` yields `[3, 7]`. -/
theorem list_pipeline_call_amended_witness :
    (Pipeline.mk (some "lw") (some fun _ _ => Val.vlist [Val.base 3]) [constSeven]
        (some list_combiner) none (some 0) true : Pipeline (Val Nat) Nat Unit).call [] () false
      = Except.ok (Val.vlist [Val.base 3, Val.base 7]) :=
  (list_pipeline_call_amended _ (fun _ _ => Val.vlist [Val.base 3]) [Val.base 3]
      rfl rfl rfl [] () false rfl (Or.inl rfl)).trans rfl

/-- C7: the joint-value post-processor returns a singleton's sole element
unchanged; on a list of length at least two it returns `1 - prod (1 - v)`;
in particular `[0.2, 0.5]` yields `1 - 0.8 * 0.5 = 0.6`. -/
theorem joint_value_post_processor_spec :
    (∀ (x s : ℚ), joint_value_post_processor [x] s = x)
    ∧ (∀ (a : List ℚ) (s : ℚ), 2 ≤ a.length →
        joint_value_post_processor a s = 1 - (a.map fun v => 1 - v).prod)
    ∧ joint_value_post_processor [2/10, 5/10] 0 = 6/10 := by
  have foldl_prod : ∀ (l : List ℚ) (c : ℚ),
      l.foldl (fun product v => product * (1 - v)) c = c * (l.map fun v => 1 - v).prod := by
    intro l
    induction l with
    | nil => intro c; simp
    | cons x rest ih =>
      intro c
      simp only [List.foldl_cons, List.map_cons, List.prod_cons, ih]
      ring
  refine ⟨fun x s => rfl, ?_, ?_⟩
  · intro a s ha
    match a with
    | [] => simp at ha
    | [x] => simp at ha
    | x :: y :: rest =>
      show 1 - List.foldl (fun product v => product * (1 - v)) 1 (x :: y :: rest) = _
      rw [foldl_prod, one_mul]
  · show (1 : ℚ) - List.foldl (fun product v => product * (1 - v)) 1 [2/10, 5/10] = 6/10
    norm_num

/-- Witness for C7's length hypothesis: at the two-element list
`[1/2, 1/3]` the general formula applies. -/
theorem joint_value_post_processor_spec_witness :
    2 ≤ ([1/2, 1/3] : List ℚ).length ∧
      joint_value_post_processor [1/2, 1/3] 0
        = 1 - (([1/2, 1/3] : List ℚ).map fun v => 1 - v).prod :=
  ⟨by norm_num, joint_value_post_processor_spec.2.1 [1/2, 1/3] 0 (by norm_num)⟩

/-- A modifier exposing an explicit `name` attribute (a Pipeline or
lookup-table-like object). -/
def mNamed : Modifier Nat Unit :=
  ⟨some "tbl", none, none, true, ⟨"Table", none⟩, fun _ _ => 0⟩

/-- A bound method `.bar` of an owner exposing `.name == "foo"`. -/
def mBound : Modifier Nat Unit :=
  ⟨none, some ⟨some "foo", "Component"⟩, some "bar", true, ⟨"method", none⟩, fun _ _ => 0⟩

/-- A bound method `.bar` of an owner with no `name` attribute and class
`Comp`. -/
def mBoundNoName : Modifier Nat Unit :=
  ⟨none, some ⟨none, "Comp"⟩, some "bar", true, ⟨"method", none⟩, fun _ _ => 0⟩

/-- A plain unbound function `baz`. -/
def mPlainBaz : Modifier Nat Unit :=
  ⟨none, none, some "baz", true, ⟨"function", none⟩, fun _ _ => 0⟩

/-- An anonymous callable: an instance of a class `F` defining `__call__`,
with no `name`, `__self__` or `__name__` attribute, and no attribute spelled
`name__` on its class (no ordinary class has one). -/
def mAnon : Modifier Nat Unit :=
  ⟨none, none, none, true, ⟨"F", none⟩, fun _ _ => 0⟩

/-- An object with none of the probed attributes and no `__call__`. -/
def mUnknown : Modifier Nat Unit :=
  ⟨none, none, none, false, ⟨"X", none⟩, fun _ _ => 0⟩

/-- C5: the display-name fallback chain resolves an explicit `name`
attribute, then bound methods as `<owner name>.<method __name__>` (falling
back to the owner's class name), then a plain function's `__name__`, and
raises the unresolvable-modifier value error when nothing matches; but on an
anonymous callable the code reads the nonexistent class attribute `name__`
(a slip for `__name__`) and so raises `AttributeError` instead of returning
the claimed class-qualified `F.__call__`. -/
theorem modifier_name_resolution_cases :
    _get_modifier_name mNamed = Except.ok "tbl"
    ∧ _get_modifier_name mBound = Except.ok "foo.bar"
    ∧ _get_modifier_name mBoundNoName = Except.ok "Comp.bar"
    ∧ _get_modifier_name mPlainBaz = Except.ok "baz"
    ∧ _get_modifier_name mAnon = Except.error Err.attributeError
    ∧ _get_modifier_name mAnon ≠ Except.ok "F.__call__"
    ∧ _get_modifier_name mUnknown = Except.error Err.valueError := by
  refine ⟨rfl, rfl, rfl, rfl, rfl, ?_, rfl⟩
  intro h
  exact Except.noConfusion h

/-- A plain function modifier whose display name resolves to `m`. -/
def mPlainM : Modifier Nat Unit :=
  ⟨none, none, some "m", true, ⟨"function", none⟩, fun _ _ => 0⟩

/-- An empty manager state. -/
def mgrEmpty : ValuesManager Nat Nat Unit := ⟨[], 0⟩

/-- The manager state after registering `mPlainM` as a modifier of the
(auto-created, still unsourced) pipeline `p`. -/
def mgrAfterMod : ValuesManager Nat Nat Unit :=
  ⟨[("p", { Pipeline.init with mutators := [mPlainM] })], 0⟩

/-- C4 is false on the code: registering the first modifier of pipeline `p`
declares the `value_modifier` resource under key `p.1.m` (the mutator-list
length after the append, so 1-based), while `on_post_setup` emits the
dependency edge `value_modifier.p.0.m` for that same mutator (`enumerate`,
0-based); the declared identifier and the emitted edge differ. -/
theorem modifier_resource_index_mismatch :
    mgrEmpty.register_value_modifier "p" mPlainM = Except.ok (mgrAfterMod, "p.1.m")
    ∧ resourceId "value_modifier" "p.1.m" = "value_modifier.p.1.m"
    ∧ mgrAfterMod.on_post_setup
        = Except.ok [("value", ["p"], ["value_modifier.p.0.m"])]
    ∧ "value_modifier.p.1.m" ≠ "value_modifier.p.0.m" := by
  refine ⟨rfl, rfl, rfl, ?_⟩
  decide

/-- When every mutator's display name resolves, the `enumerate` loop of
`on_post_setup` produces one `value_modifier` edge per mutator, indexed from
the starting counter. -/
theorem modifierDeps_ok {V K : Type} (n : String) (disp : Modifier V K → String)
    (ms : List (Modifier V K))
    (hm : ∀ m ∈ ms, _get_modifier_name m = Except.ok (disp m)) :
    ∀ i, modifierDeps n i ms
      = Except.ok (((ms.map disp).enumFrom i).map
          fun im => "value_modifier." ++ n ++ "." ++ toString im.1 ++ "." ++ im.2) := by
  induction ms with
  | nil => intro i; rfl
  | cons m rest ih =>
    intro i
    have h1 : _get_modifier_name m = Except.ok (disp m) := hm m (List.mem_cons_self _ _)
    have h2 : ∀ x ∈ rest, _get_modifier_name x = Except.ok (disp x) :=
      fun x hx => hm x (List.mem_cons_of_mem _ hx)
    simp [modifierDeps, h1, ih h2 (i + 1), List.enumFrom]

/-- The post-setup registration loop registers every pipeline with its
specified dependency list. -/
theorem postSetupRegs_ok {V S K : Type} (disp : Modifier V K → String)
    (l : List (String × Pipeline V S K))
    (h : ∀ n p, (n, p) ∈ l → ∀ m ∈ p.mutators, _get_modifier_name m = Except.ok (disp m)) :
    postSetupRegs l
      = Except.ok (l.map fun np =>
          ("value", [np.1], specValueDeps np.1 np.2 (np.2.mutators.map disp))) := by
  induction l with
  | nil => rfl
  | cons np rest ih =>
    rcases np with ⟨n, p⟩
    have h1 : ∀ m ∈ p.mutators, _get_modifier_name m = Except.ok (disp m) :=
      h n p (List.mem_cons_self _ _)
    have h2 : ∀ n2 p2, (n2, p2) ∈ rest → ∀ m ∈ p2.mutators,
        _get_modifier_name m = Except.ok (disp m) :=
      fun n2 p2 hmem => h n2 p2 (List.mem_cons_of_mem _ hmem)
    simp [postSetupRegs, valueDeps, modifierDeps_ok n disp p.mutators h1 0, ih h2,
      specValueDeps, List.enum]

/-- C3: at post-setup, every currently registered pipeline — configured or
not, sourced or not — is registered as a `value` resource for its name whose
dependency list is exactly `value_source.<name>` if and only if it has a
source, followed by one `value_modifier.<name>.<i>.<modifier-name>` entry per
mutator in registration order; in particular an unsourced pipeline is still
registered, never rejected. -/
theorem on_post_setup_registers_all {V S K : Type} (mgr : ValuesManager V S K)
    (disp : Modifier V K → String)
    (h : ∀ n p, (n, p) ∈ mgr._pipelines → ∀ m ∈ p.mutators,
        _get_modifier_name m = Except.ok (disp m)) :
    mgr.on_post_setup
      = Except.ok (mgr._pipelines.map fun np =>
          ("value", [np.1], specValueDeps np.1 np.2 (np.2.mutators.map disp)))
    ∧ ∀ n p, (n, p) ∈ mgr._pipelines → p.source = none →
        ("value", [n], specValueDeps n p (p.mutators.map disp))
          ∈ mgr._pipelines.map fun np =>
              ("value", [np.1], specValueDeps np.1 np.2 (np.2.mutators.map disp)) := by
  refine ⟨postSetupRegs_ok disp mgr._pipelines h, ?_⟩
  intro n p hmem _
  exact List.mem_map_of_mem _ hmem

/-- A concrete configured pipeline named `alpha` with one mutator. -/
def srcPipeA : Pipeline Nat Nat Unit :=
  ⟨some "alpha", some (fun _ _ => 0), [incLast], some replace_combiner, none, some 0, true⟩

/-- A concrete unsourced pipeline with one mutator. -/
def pipeB : Pipeline Nat Nat Unit :=
  { Pipeline.init with mutators := [incLast] }

/-- A concrete manager holding a sourced and an unsourced pipeline. -/
def mgrW3 : ValuesManager Nat Nat Unit := ⟨[("alpha", srcPipeA), ("beta", pipeB)], 0⟩

/-- Witness for C3: on the concrete two-pipeline registry, post-setup
registers both pipelines — the unsourced `beta` included — with exactly the
specified dependency lists. -/
theorem on_post_setup_registers_all_witness :
    mgrW3.on_post_setup = Except.ok
      [("value", ["alpha"], ["value_source.alpha", "value_modifier.alpha.0.inc_last"]),
       ("value", ["beta"], ["value_modifier.beta.0.inc_last"])] := by
  have hyp : ∀ n p, (n, p) ∈ mgrW3._pipelines → ∀ m ∈ p.mutators,
      _get_modifier_name m = Except.ok ((fun m2 => m2.name.getD "") m) := by
    intro n p hmem m hm
    simp [mgrW3] at hmem
    rcases hmem with ⟨rfl, rfl⟩ | ⟨rfl, rfl⟩ <;>
      simp [srcPipeA, pipeB, Pipeline.init] at hm <;> subst hm <;> rfl
  exact ((on_post_setup_registers_all mgrW3 (fun m2 => m2.name.getD "") hyp).1).trans rfl

/-- Appending a fresh entry for an absent key makes it findable. -/
theorem dictLookup_append_of_none {α : Type} (l : List (String × α)) (n : String) (p : α)
    (h : dictLookup l n = none) : dictLookup (l ++ [(n, p)]) n = some p := by
  induction l with
  | nil => simp [dictLookup]
  | cons kv rest ih =>
    rcases kv with ⟨k, v⟩
    by_cases hk : k = n
    · simp [dictLookup, hk] at h
    · simp only [dictLookup, hk, if_false, List.cons_append] at h ⊢
      exact ih h

/-- Assigning a key makes the assigned value the one found. -/
theorem dictLookup_dictSet_self {α : Type} (l : List (String × α)) (n : String) (p : α) :
    dictLookup (dictSet l n p) n = some p := by
  induction l with
  | nil => simp [dictSet, dictLookup]
  | cons kv rest ih =>
    rcases kv with ⟨k, v⟩
    by_cases hk : k = n
    · simp [dictSet, dictLookup, hk]
    · simp [dictSet, dictLookup, hk, ih]

/-- Assigning a key that is already present leaves the key sequence of the
dict unchanged. -/
theorem dictSet_keys_of_lookup {α : Type} (l : List (String × α)) (n : String) (p q : α)
    (h : dictLookup l n = some q) : (dictSet l n p).map Prod.fst = l.map Prod.fst := by
  induction l with
  | nil => simp [dictLookup] at h
  | cons kv rest ih =>
    rcases kv with ⟨k, v⟩
    by_cases hk : k = n
    · simp [dictSet, hk]
    · simp only [dictLookup, hk, if_false] at h
      simp [dictSet, hk, ih h]

/-- A defaultdict access on a present key returns it without touching the
manager state. -/
theorem dictGet_of_lookup {V S K : Type} (mgr : ValuesManager V S K) (n : String)
    (p : Pipeline V S K) (h : dictLookup mgr._pipelines n = some p) :
    dictGet mgr n = (p, mgr) := by
  unfold dictGet
  rw [h]

/-- Registering a producer over a present entry updates that entry in place:
the returned pipeline is the stored one with exactly the producer fields
reassigned, and the registry maps the name to it. -/
theorem register_value_producer_of_lookup {V S K : Type} (mgr : ValuesManager V S K)
    (n : String) (p : Pipeline V S K) (h : dictLookup mgr._pipelines n = some p)
    (s : List V → K → V) (comb : Combiner V K) (post : Option (V → S → V)) :
    mgr.register_value_producer n s comb post
      = ({ p with
            name := some n, source := some s, combiner := some comb,
            post_processor := post, manager := some mgr.step_size, configured := true },
         { mgr with
            _pipelines := dictSet mgr._pipelines n
              { p with
                name := some n, source := some s, combiner := some comb,
                post_processor := post, manager := some mgr.step_size,
                configured := true } }) := by
  unfold ValuesManager.register_value_producer ValuesManager._register_value_producer
  rw [dictGet_of_lookup _ _ _ h]

/-- C8: looking up an unregistered name auto-creates an empty unconfigured
pipeline entry; invoking that pipeline raises the no-source dynamic-value
error; registering a producer for the same name afterward updates that very
entry in place (only configuring its fields), later lookups return exactly
the configured pipeline, and the pipeline has become callable. -/
theorem get_value_autovivify_then_configure {V S K : Type} (mgr : ValuesManager V S K)
    (n : String) (h : dictLookup mgr._pipelines n = none)
    (args : List V) (kwargs : K) (skip_post_processor : Bool)
    (f : List V → K → V) (comb : Combiner V K) (post : Option (V → S → V)) :
    (mgr.get_value n).1 = Pipeline.init
    ∧ dictLookup (mgr.get_value n).2._pipelines n = some Pipeline.init
    ∧ (mgr.get_value n).1.call args kwargs skip_post_processor
        = Except.error (Err.dynamicValueNoSource none)
    ∧ ((mgr.get_value n).2.register_value_producer n f comb post).1
        = { (Pipeline.init : Pipeline V S K) with
            name := some n, source := some f, combiner := some comb,
            post_processor := post, manager := some mgr.step_size, configured := true }
    ∧ ((mgr.get_value n).2.register_value_producer n f comb post).2.get_value n
        = (((mgr.get_value n).2.register_value_producer n f comb post).1,
           ((mgr.get_value n).2.register_value_producer n f comb post).2)
    ∧ ((mgr.get_value n).2.register_value_producer n f comb post).1.call args kwargs true
        = Except.ok (f args kwargs) := by
  have h1 : mgr.get_value n
      = (Pipeline.init, { mgr with _pipelines := mgr._pipelines ++ [(n, Pipeline.init)] }) := by
    unfold ValuesManager.get_value dictGet
    rw [h]
  rw [h1]
  have h2 : dictLookup (mgr._pipelines ++ [(n, Pipeline.init)]) n = some Pipeline.init :=
    dictLookup_append_of_none _ _ _ h
  have h4 := register_value_producer_of_lookup
    { mgr with _pipelines := mgr._pipelines ++ [(n, Pipeline.init)] } n Pipeline.init h2
    f comb post
  rw [h4]
  refine ⟨rfl, h2, rfl, rfl, ?_, ?_⟩
  · unfold ValuesManager.get_value
    exact dictGet_of_lookup _ _ _ (dictLookup_dictSet_self _ _ _)
  · rcases post with _ | pp <;> rfl

/-- Witness for C8: on the empty manager, looking up `pipe` creates the
default entry, and after registering a constant source the pipeline call
returns the source's value. -/
theorem get_value_autovivify_then_configure_witness :
    dictLookup (mgrEmpty._pipelines) "pipe" = none ∧
      ((mgrEmpty.get_value "pipe").2.register_value_producer "pipe" (fun _ _ => 5)
          replace_combiner none).1.call [] () true = Except.ok 5 :=
  ⟨rfl,
    (get_value_autovivify_then_configure mgrEmpty "pipe" rfl [] () false
        (fun _ _ => 5) replace_combiner none).2.2.2.2.2⟩

/-- C9: registering a producer twice for the same name does not fail: the
second registration overwrites the previously stored source, combiner and
post-processor (last write wins), both returned handles are the pipeline
registered under that name, the mutator list carries over, and the registry
still holds a single entry for the name (its key sequence is unchanged). -/
theorem double_register_overwrites {V S K : Type} (mgr : ValuesManager V S K) (n : String)
    (s1 s2 : List V → K → V) (c1 c2 : Combiner V K) (q1 q2 : Option (V → S → V)) :
    ((mgr.register_value_producer n s1 c1 q1).2.register_value_producer n s2 c2 q2).1.source
        = some s2
    ∧ ((mgr.register_value_producer n s1 c1 q1).2.register_value_producer n s2 c2 q2).1.combiner
        = some c2
    ∧ ((mgr.register_value_producer n s1 c1 q1).2.register_value_producer
        n s2 c2 q2).1.post_processor = q2
    ∧ (mgr.register_value_producer n s1 c1 q1).1.name = some n
    ∧ ((mgr.register_value_producer n s1 c1 q1).2.register_value_producer n s2 c2 q2).1.name
        = some n
    ∧ ((mgr.register_value_producer n s1 c1 q1).2.register_value_producer n s2 c2 q2).1.mutators
        = (mgr.register_value_producer n s1 c1 q1).1.mutators
    ∧ dictLookup
        ((mgr.register_value_producer n s1 c1 q1).2.register_value_producer
          n s2 c2 q2).2._pipelines n
        = some ((mgr.register_value_producer n s1 c1 q1).2.register_value_producer
            n s2 c2 q2).1
    ∧ ((mgr.register_value_producer n s1 c1 q1).2.register_value_producer
          n s2 c2 q2).2._pipelines.map Prod.fst
        = (mgr.register_value_producer n s1 c1 q1).2._pipelines.map Prod.fst := by
  have h1 : dictLookup (mgr.register_value_producer n s1 c1 q1).2._pipelines n
      = some (mgr.register_value_producer n s1 c1 q1).1 :=
    dictLookup_dictSet_self _ _ _
  have h4 := register_value_producer_of_lookup (mgr.register_value_producer n s1 c1 q1).2 n
    (mgr.register_value_producer n s1 c1 q1).1 h1 s2 c2 q2
  rw [h4]
  exact ⟨rfl, rfl, rfl, rfl, rfl, rfl, dictLookup_dictSet_self _ _ _,
    dictSet_keys_of_lookup _ _ _ _ h1⟩

/-- C10: (re-)registering a producer assigns only `name`, `source`,
`combiner`, `post_processor`, `manager` and `configured` on the pipeline
registered under that name — its mutator list is exactly the one it had
before — and a subsequent call (with `replace_combiner`, no post-processor)
still folds those surviving mutators over the new source. -/
theorem register_producer_preserves_mutators {V S K : Type} (mgr : ValuesManager V S K)
    (n : String) (f : List V → K → V) (comb : Combiner V K) (post : Option (V → S → V))
    (args : List V) (kwargs : K) :
    (mgr._register_value_producer n (some f) comb post).1.mutators
        = (dictGet mgr n).1.mutators
    ∧ (mgr._register_value_producer n (some f) comb post).1
        = { (dictGet mgr n).1 with
            name := some n, source := some f, combiner := some comb,
            post_processor := post, manager := some mgr.step_size, configured := true }
    ∧ (mgr.register_value_producer n f replace_combiner none).1.call args kwargs false
        = Except.ok ((dictGet mgr n).1.mutators.foldl
            (fun value m => m.call (args ++ [value]) kwargs) (f args kwargs)) := by
  refine ⟨rfl, rfl, ?_⟩
  show Pipeline.call _ _ _ _ = _
  unfold ValuesManager.register_value_producer ValuesManager._register_value_producer
    Pipeline.call
  simp only [Pipeline.callBody, applyMutators_replace]
  simp

end Vivarium
